import Mathlib

/-!
Shallow embedding of the drug-knowledge query layer of the repository:
the static reference tables and resolver functions of src/app.py and the
record-building logic of the bulk importer src/import_data.py.
Python dictionaries are modelled as association lists with first-match
lookup (dict assignment is modelled by prepending, which gives the same
observable get behaviour); the SQLite bulk table is modelled as a list of
records queried by exact name; Python string.lower() is the lower function below;
the unbounded Python int age is Int.
-/

namespace MedApp

/-- Python str.lower(), the normalization applied before every lookup:
lower-case every character of the string. (This is String.toLower written
by structural recursion over the character list, so that concrete
instances evaluate inside the kernel.) -/
def lower (s : String) : String := ⟨s.data.map Char.toLower⟩

/-- A record of the medicine information tables: src/app.py lines 60-85
and the columns of the medicines SQLite table of src/import_data.py. -/
structure MedicineRecord where
  name : String
  description : String
  uses : String
  side_effects : String
deriving DecidableEq

/-- The dummy interaction table drug_interactions of src/app.py lines 39-42:
a dict keyed by an ordered pair of drug names. -/
def drug_interactions : List ((String × String) × String) :=
  [(("aspirin", "ibuprofen"), "Increased risk of bleeding"),
   (("paracetamol", "ibuprofen"), "Generally safe")]

/-- The alternatives table drug_alternatives of src/app.py lines 44-48. -/
def drug_alternatives : List (String × List String) :=
  [("aspirin", ["acetaminophen", "naproxen"]),
   ("ibuprofen", ["acetaminophen", "naproxen"]),
   ("paracetamol", ["aspirin", "ibuprofen", "naproxen"])]

/-- One entry of the dosage table: the child band and the adult band dose. -/
structure DosageEntry where
  child : String
  adult : String
deriving DecidableEq

/-- The dosage table dosage_by_age of src/app.py lines 51-57. -/
def dosage_by_age : List (String × DosageEntry) :=
  [("aspirin", ⟨"50mg", "100mg"⟩),
   ("ibuprofen", ⟨"100mg", "200mg"⟩),
   ("paracetamol", ⟨"120mg", "500mg"⟩),
   ("acetaminophen", ⟨"120mg", "500mg"⟩),
   ("naproxen", ⟨"100mg", "250mg"⟩)]

/-- The hardcoded authoritative table medicine_info_db of src/app.py
lines 60-85. -/
def medicine_info_db : List (String × MedicineRecord) :=
  [("aspirin",
    ⟨"Aspirin",
     "Aspirin is a nonsteroidal anti-inflammatory drug (NSAID) used to reduce pain, fever, and inflammation.",
     "Pain relief (headaches, muscle aches, etc.), fever reduction, and prevention of blood clots (at low doses).",
     "Stomach upset, heartburn, nausea, and increased risk of bleeding."⟩),
   ("ibuprofen",
    ⟨"Ibuprofen",
     "Ibuprofen is an NSAID used to relieve pain, fever, and inflammation.",
     "Used for headaches, menstrual cramps, dental pain, and arthritis.",
     "Stomach pain, nausea, vomiting, dizziness, and rash."⟩),
   ("acetaminophen",
    ⟨"Acetaminophen",
     "Acetaminophen (also known as Paracetamol) is a pain reliever and fever reducer.",
     "Treats mild to moderate pain (headaches, backaches) and reduces fever.",
     "Rarely causes side effects at recommended doses, but can cause liver damage in large amounts."⟩),
   ("paracetamol",
    ⟨"Paracetamol",
     "Paracetamol (also known as Acetaminophen) is a pain reliever and fever reducer.",
     "Treats mild to moderate pain (headaches, backaches) and reduces fever.",
     "Rarely causes side effects at recommended doses, but can cause liver damage in large amounts."⟩)]

/-- An interaction record emitted by the interaction analysis: the dict
with keys drugs and interaction built at src/app.py lines 150 and 152. -/
structure InteractionRecord where
  drugs : String × String
  interaction : String
deriving DecidableEq

/-- The body of the inner loop of ibm_watson_drug_interaction_analysis
(src/app.py lines 147-152): build the pair and the reversed pair, look the
pair up first, then the reversed pair, and produce a record on the first
hit, none when neither ordering is a key. -/
def checkPair (a b : String) : Option InteractionRecord :=
  match List.lookup (a, b) drug_interactions with
  | some w => some ⟨(a, b), w⟩
  | none =>
    match List.lookup (b, a) drug_interactions with
    | some w => some ⟨(b, a), w⟩
    | none => none

/-- ibm_watson_drug_interaction_analysis of src/app.py lines 142-153:
lower-case every name, then run the nested index loops, for i in
range(len(drugs)) and for j in range(i + 1, len(drugs)), appending the
record produced by the loop body when there is one. -/
def ibm_watson_drug_interaction_analysis (drugs : List String) : List InteractionRecord :=
  let ds := drugs.map lower
  (List.range ds.length).flatMap (fun i =>
    (List.range' (i + 1) (ds.length - (i + 1))).filterMap (fun j =>
      checkPair (ds.getD i "") (ds.getD j "")))

/-- Result of the get_dosage endpoint: either the success dict with keys
drug and recommended_dosage, or the error dict. -/
inductive DosageResult where
  | ok (drug recommended_dosage : String)
  | error (msg : String)
deriving DecidableEq

/-- get_dosage of src/app.py lines 160-169: lower-case the name; unknown
names give the error dict; otherwise pick the child band when age < 18 and
the adult band otherwise. -/
def get_dosage (drug : String) (age : Int) : DosageResult :=
  let d := lower drug
  match List.lookup d dosage_by_age with
  | none => .error "Drug not found"
  | some entry => .ok d (if age < 18 then entry.child else entry.adult)

/-- Result of the get_alternatives endpoint: the dict with keys drug and
alternatives. -/
structure AlternativesResult where
  drug : String
  alternatives : List String
deriving DecidableEq

/-- get_alternatives of src/app.py lines 171-175: lower-case the name and
read the alternatives table with default empty list. -/
def get_alternatives (drug : String) : AlternativesResult :=
  let d := lower drug
  ⟨d, (List.lookup d drug_alternatives).getD []⟩

/-- Result of the get_medicine_info endpoint: a medicine record or the
error dict. -/
inductive MedicineInfoResult where
  | ok (r : MedicineRecord)
  | error (msg : String)
deriving DecidableEq

/-- get_medicine_info of src/app.py lines 202-218: check the hardcoded
table for the lower-cased name first and return its record immediately on
a hit; otherwise select from the SQLite medicines table by exact
lower-cased name; otherwise the error dict. The bulk SQLite store is the
parameter bulk, queried only on a static-table miss. -/
def get_medicine_info (bulk : List MedicineRecord) (drug_name : String) : MedicineInfoResult :=
  match List.lookup (lower drug_name) medicine_info_db with
  | some r => .ok r
  | none =>
    match bulk.find? (fun m => m.name == lower drug_name) with
    | some m => .ok m
    | none => .error "Medicine not found"

/-- An entry of the in-memory orders dict of src/app.py lines 180-186. -/
structure Order where
  patient : String
  drugs : List String
  location : String
  mobile_number : String
  status : String
deriving DecidableEq

/-- The request body of order_medicines (src/app.py lines 100-104). -/
structure OrderMedicinesRequest where
  drugs : List String
  patient_name : String
  location : String
  mobile_number : String
deriving DecidableEq

/-- The response of order_medicines: the dict with keys order_id and
status built at src/app.py line 187. -/
structure OrderResponse where
  order_id : String
  status : String
deriving DecidableEq

/-- order_medicines of src/app.py lines 177-187: store a new order under
the freshly generated order_id (the uuid is the parameter order_id here)
with status Processing, and answer with the order_id. Dict assignment is
modelled by prepending the binding; List.lookup takes the first match, so
reads behave as on the Python dict. -/
def order_medicines (orders : List (String × Order)) (order_id : String)
    (data : OrderMedicinesRequest) : List (String × Order) × OrderResponse :=
  ((order_id, ⟨data.patient_name, data.drugs, data.location, data.mobile_number, "Processing"⟩) :: orders,
   ⟨order_id, "Order placed"⟩)

/-- Result of the order_status endpoint (src/app.py lines 189-200). -/
inductive OrderStatusResult where
  | ok (order_id status : String) (drugs : List String) (location mobile_number : String)
  | error (msg : String)
deriving DecidableEq

/-- order_status of src/app.py lines 189-200: look the order up; absent
ids give the error dict, otherwise echo the stored fields. -/
def order_status (orders : List (String × Order)) (order_id : String) : OrderStatusResult :=
  match List.lookup order_id orders with
  | none => .error "Order not found"
  | some o => .ok order_id o.status o.drugs o.location o.mobile_number

/-- One item of the results array of the imported openFDA JSON feed, with
the fields read by src/import_data.py. A field is some l when the key is
present with the JSON array l; Python truthiness of the value is
non-emptiness of the array. generic_name and brand_name live under the
openfda object of the item. -/
structure FdaItem where
  generic_name : Option (List String)
  brand_name : Option (List String)
  indications_and_usage : Option (List String)
  pharmacology_and_toxicology : Option (List String)
  adverse_reactions : Option (List String)
  warnings : Option (List String)
  precautions : Option (List String)
deriving DecidableEq

/-- The name extraction of src/import_data.py lines 31-37: the first
element of a present non-empty generic_name, else of a present non-empty
brand_name, lower-cased; otherwise the empty string sentinel. -/
def extractName (item : FdaItem) : String :=
  match item.generic_name with
  | some (x :: _) => lower x
  | _ =>
    match item.brand_name with
    | some (x :: _) => lower x
    | _ => ""

/-- The uses extraction of src/import_data.py lines 39-44: the
space-joined indications_and_usage when present and non-empty, else the
space-joined pharmacology_and_toxicology, else the sentinel. -/
def extractUses (item : FdaItem) : String :=
  match item.indications_and_usage with
  | some (x :: xs) => String.intercalate " " (x :: xs)
  | _ =>
    match item.pharmacology_and_toxicology with
    | some (x :: xs) => String.intercalate " " (x :: xs)
    | _ => "Not available."

/-- The side-effects extraction of src/import_data.py lines 46-53: the
space-joined adverse_reactions when present and non-empty, else the
space-joined warnings, else the space-joined precautions, else the
sentinel. -/
def extractSideEffects (item : FdaItem) : String :=
  match item.adverse_reactions with
  | some (x :: xs) => String.intercalate " " (x :: xs)
  | _ =>
    match item.warnings with
    | some (x :: xs) => String.intercalate " " (x :: xs)
    | _ =>
      match item.precautions with
      | some (x :: xs) => String.intercalate " " (x :: xs)
      | _ => "Not available."

/-- The per-item processing of src/import_data.py lines 31-61: build the
row (name, description, uses, side_effects) with description copied from
uses (line 55), and drop the item when no name was resolvable (the
if name guard of line 57). -/
def processItem (item : FdaItem) : Option MedicineRecord :=
  let name := extractName item
  let uses := extractUses item
  let side_effects := extractSideEffects item
  let description := uses
  if name = "" then none else some ⟨name, description, uses, side_effects⟩

/-- The body of the import loop of src/import_data.py lines 29-61: insert
the processed row keyed by its name; INSERT OR IGNORE on the name primary
key keeps the first inserted row and drops later duplicates. -/
def insertRow (db : List (String × MedicineRecord)) (item : FdaItem) :
    List (String × MedicineRecord) :=
  match processItem item with
  | none => db
  | some row =>
    if (List.lookup row.name db).isSome then db else db ++ [(row.name, row)]

/-- import_data_from_json of src/import_data.py, restricted to the table
it builds: fold the insert step over the items of the results array,
starting from the freshly created empty table. -/
def import_data_from_json (items : List FdaItem) : List (String × MedicineRecord) :=
  items.foldl insertRow []

/-- The order-table invariant: every stored order has status Processing. -/
def allProcessing (orders : List (String × Order)) : Prop :=
  ∀ p ∈ orders, p.2.status = "Processing"

/-! Definitions written from the words of the specification, to be
compared with the embeddings above. -/

/-- Spec-side pair generation: every unordered pair (i < j) drawn from the
input sequence, in the order i ascending then j ascending. -/
def listPairs : List String → List (String × String)
  | [] => []
  | d :: rest => (rest.map (fun e => (d, e))) ++ listPairs rest

/-- Spec-side side-effects rule: the space-joined text of the first of
adverse_reactions, warnings, precautions that is present and non-empty,
else the literal sentinel. -/
def sideEffectsSpec (item : FdaItem) : String :=
  match [item.adverse_reactions, item.warnings, item.precautions].findSome?
      (fun c => match c with | some (x :: xs) => some (x :: xs) | _ => none) with
  | some l => String.intercalate " " l
  | none => "Not available."

/-! Helper lemmas. -/

/-- Reading a list at every index of List.range of its length gives the
list back. -/
theorem getD_map_range {α : Type _} (d : α) (l : List α) :
    (List.range l.length).map (fun i => l.getD i d) = l := by
  induction l with
  | nil => simp
  | cons a t ih =>
    rw [List.length_cons, List.range_succ_eq_map, List.map_cons, List.map_map]
    simp only [List.getD_cons_zero, Function.comp_def, List.getD_cons_succ]
    rw [ih]

/-- filterMap over the indices of a list is filterMap over its elements. -/
theorem filterMap_getD_range {α β : Type _} (d : α) (g : α → Option β) (l : List α) :
    (List.range l.length).filterMap (fun i => g (l.getD i d)) = l.filterMap g := by
  conv_rhs => rw [← getD_map_range d l]
  rw [List.filterMap_map]
  rfl

/-- The nested index loops of ibm_watson_drug_interaction_analysis, for i
in range(len) and for j in range(i + 1, len), visit exactly the pairs of
listPairs in that order. -/
theorem flatMap_range_eq_listPairs {α : Type _} (f : String → String → Option α) :
    ∀ ds : List String,
      (List.range ds.length).flatMap (fun i =>
        (List.range' (i + 1) (ds.length - (i + 1))).filterMap (fun j =>
          f (ds.getD i "") (ds.getD j ""))) =
      (listPairs ds).filterMap (fun p => f p.1 p.2) := by
  intro ds
  induction ds with
  | nil => simp [listPairs]
  | cons d rest ih =>
    rw [listPairs, List.filterMap_append, ← ih]
    rw [List.length_cons, List.range_succ_eq_map, List.flatMap_cons, List.flatMap_map]
    congr 1
    · rw [Nat.add_sub_cancel, List.range'_eq_map_range, List.filterMap_map]
      rw [List.filterMap_map]
      refine Eq.trans ?_ (filterMap_getD_range "" (fun e => f d e) rest)
      congr 1
      funext j
      have h1 : 1 + j = j + 1 := Nat.add_comm 1 j
      simp only [Function.comp_def, List.getD_cons_zero, h1, List.getD_cons_succ]
    · congr 1
      funext i
      have hl : rest.length + 1 - (Nat.succ i + 1) = rest.length - (i + 1) := by omega
      rw [hl, List.getD_cons_succ, List.range'_eq_map_range, List.range'_eq_map_range,
        List.filterMap_map, List.filterMap_map]
      congr 1
      funext x
      have h2 : Nat.succ i + 1 + x = (i + 1 + x) + 1 := by omega
      simp only [Function.comp_def, h2, List.getD_cons_succ]

/-- checkPair produces a record exactly when one of the two orderings of
the pair is a key of the interaction table. -/
theorem checkPair_isSome_iff (a b : String) :
    (checkPair a b).isSome ↔
      ((List.lookup (a, b) drug_interactions).isSome ∨
       (List.lookup (b, a) drug_interactions).isSome) := by
  unfold checkPair
  cases h1 : List.lookup (a, b) drug_interactions <;>
    cases h2 : List.lookup (b, a) drug_interactions <;> simp [h1, h2]

/-- The interaction table has no reflexive key, so a pair of equal names
is never found. -/
theorem lookup_self_none (y : String) : List.lookup (y, y) drug_interactions = none := by
  have key : ∀ a b : String, a ≠ b → ((y, y) == ((a, b) : String × String)) = false := by
    intro a b hab
    apply beq_eq_false_iff_ne.mpr
    intro h
    rw [Prod.mk.injEq] at h
    exact hab (h.1.symm.trans h.2)
  simp [drug_interactions, List.lookup,
    key "aspirin" "ibuprofen" (by decide),
    key "paracetamol" "ibuprofen" (by decide)]

/-- The loop body never emits a record for a pair of equal names. -/
theorem checkPair_self_none (y : String) : checkPair y y = none := by
  unfold checkPair
  rw [lookup_self_none]

/-- Every pair generated from a constant list is the reflexive pair. -/
theorem mem_listPairs_replicate (y : String) :
    ∀ n : ℕ, ∀ p ∈ listPairs (List.replicate n y), p = (y, y) := by
  intro n
  induction n with
  | zero => simp [listPairs]
  | succ m ih =>
    intro p hp
    rw [List.replicate_succ, listPairs] at hp
    rcases List.mem_append.mp hp with h | h
    · rcases List.mem_map.mp h with ⟨e, he, rfl⟩
      rw [List.eq_of_mem_replicate he]
    · exact ih p h

/-- The interaction analysis is the pair generation of the spec (i
ascending, then j ascending, over the lower-cased input) filtered through
the loop body. -/
theorem analysis_eq (drugs : List String) :
    ibm_watson_drug_interaction_analysis drugs =
      (listPairs (drugs.map lower)).filterMap (fun p => checkPair p.1 p.2) :=
  flatMap_range_eq_listPairs (fun a b => checkPair a b) (drugs.map lower)

/-! The claims. -/

/-- Claim C3: for every input list, check_interactions lower-cases all
names, visits the index pairs i < j in pair-generation order (i ascending,
then j ascending — the order of listPairs), and for each pair the loop
body emits at most one record (filterMap), exactly when one of the two
orderings, (drugs i, drugs j) tried first and (drugs j, drugs i) second,
is a key of the interaction store. -/
theorem claim_C3 (drugs : List String) :
    ibm_watson_drug_interaction_analysis drugs =
      (listPairs (drugs.map lower)).filterMap (fun p => checkPair p.1 p.2) ∧
    ∀ a b : String, (checkPair a b).isSome ↔
      ((List.lookup (a, b) drug_interactions).isSome ∨
       (List.lookup (b, a) drug_interactions).isSome) :=
  ⟨analysis_eq drugs, checkPair_isSome_iff⟩

/-- Claim C4: both orderings of the ibuprofen and aspirin input yield
exactly one identical record for the pair, with the stored warning about
increased risk of bleeding. -/
theorem claim_C4 :
    ibm_watson_drug_interaction_analysis ["ibuprofen", "aspirin"] =
      [⟨("aspirin", "ibuprofen"), "Increased risk of bleeding"⟩] ∧
    ibm_watson_drug_interaction_analysis ["aspirin", "ibuprofen"] =
      [⟨("aspirin", "ibuprofen"), "Increased risk of bleeding"⟩] := by decide

/-- Claim C5, counterexample: a list that contains duplicate drug names
can still produce a non-empty result, so the claim as stated fails on the
input with aspirin twice and ibuprofen once. -/
theorem claim_C5_counterexample :
    (¬ (["aspirin", "ibuprofen", "aspirin"] : List String).Nodup) ∧
    ibm_watson_drug_interaction_analysis ["aspirin", "ibuprofen", "aspirin"] ≠ [] := by
  decide

/-- Claim C5, amended: an input list with fewer than two elements yields
the empty sequence, and an input list all of whose copies are one repeated
drug name yields the empty sequence (the store has no reflexive key);
both are normal returns of the total function. -/
theorem claim_C5 :
    (∀ drugs : List String, drugs.length < 2 →
      ibm_watson_drug_interaction_analysis drugs = []) ∧
    (∀ (x : String) (n : ℕ),
      ibm_watson_drug_interaction_analysis (List.replicate n x) = []) := by
  constructor
  · intro drugs h
    cases drugs with
    | nil => rfl
    | cons a t =>
      cases t with
      | nil => rfl
      | cons b t2 =>
        simp only [List.length_cons] at h
        omega
  · intro x n
    rw [analysis_eq, List.map_replicate, List.filterMap_eq_nil_iff]
    intro p hp
    rw [mem_listPairs_replicate (lower x) n p hp]
    exact checkPair_self_none (lower x)

/-- Claim C5, witness: the singleton list gives the empty sequence. -/
theorem claim_C5_witness :
    ibm_watson_drug_interaction_analysis ["aspirin"] = [] :=
  claim_C5.1 ["aspirin"] (by decide)

/-- Claim C10: every emitted record carries its drug pair in the order of
the key stored in the interaction table (the stored key maps to the
record's warning), and for the input with ibuprofen before aspirin the
emitted pair is reversed to the stored aspirin-ibuprofen order. -/
theorem claim_C10 :
    (∀ (drugs : List String) (r : InteractionRecord),
      r ∈ ibm_watson_drug_interaction_analysis drugs →
      List.lookup r.drugs drug_interactions = some r.interaction) ∧
    ibm_watson_drug_interaction_analysis ["ibuprofen", "aspirin"] =
      [⟨("aspirin", "ibuprofen"), "Increased risk of bleeding"⟩] := by
  constructor
  · intro drugs r hr
    rw [analysis_eq] at hr
    rcases List.mem_filterMap.mp hr with ⟨p, _, hp⟩
    unfold checkPair at hp
    cases h1 : List.lookup (p.1, p.2) drug_interactions with
    | some w => rw [h1] at hp; cases hp; exact h1
    | none =>
      rw [h1] at hp
      cases h2 : List.lookup (p.2, p.1) drug_interactions with
      | some w => rw [h2] at hp; cases hp; exact h2
      | none => rw [h2] at hp; cases hp
  · decide

/-- Claim C10, witness: the record emitted for the ibuprofen-then-aspirin
input is keyed exactly as stored in the interaction table. -/
theorem claim_C10_witness :
    List.lookup (("aspirin", "ibuprofen") : String × String) drug_interactions =
      some "Increased risk of bleeding" :=
  claim_C10.1 ["ibuprofen", "aspirin"]
    ⟨("aspirin", "ibuprofen"), "Increased risk of bleeding"⟩ (by decide)

/-- Claim C1: every resolver is total. For every input string (the empty
string and unknown names included), every age and every bulk store,
get_dosage returns the success dict or the explicit error dict,
get_medicine_info returns a record or the explicit error dict,
get_alternatives always returns the dict with the normalized name and a
list, and the interaction analysis returns a list, empty on unknown
names; no input reaches an unhandled failure. -/
theorem claim_C1 (s : String) (age : Int) (bulk : List MedicineRecord) :
    (get_dosage s age = DosageResult.error "Drug not found" ∨
      ∃ d r, get_dosage s age = DosageResult.ok d r) ∧
    (get_medicine_info bulk s = MedicineInfoResult.error "Medicine not found" ∨
      ∃ r, get_medicine_info bulk s = MedicineInfoResult.ok r) ∧
    (∃ l, get_alternatives s = ⟨lower s, l⟩) ∧
    get_dosage "" age = DosageResult.error "Drug not found" ∧
    get_alternatives "" = ⟨"", []⟩ ∧
    get_medicine_info [] "" = MedicineInfoResult.error "Medicine not found" ∧
    ibm_watson_drug_interaction_analysis ["", "unknowndrug"] = [] := by
  refine ⟨?_, ?_, ⟨(List.lookup (lower s) drug_alternatives).getD [], rfl⟩,
    rfl, rfl, rfl, by decide⟩
  · cases h : List.lookup (lower s) dosage_by_age with
    | none => exact Or.inl (by simp [get_dosage, h])
    | some e =>
      exact Or.inr ⟨lower s, if age < 18 then e.child else e.adult, by simp [get_dosage, h]⟩
  · cases h : List.lookup (lower s) medicine_info_db with
    | some r => exact Or.inr ⟨r, by simp [get_medicine_info, h]⟩
    | none =>
      cases h2 : bulk.find? (fun m => m.name == lower s) with
      | some m => exact Or.inr ⟨m, by simp [get_medicine_info, h, h2]⟩
      | none => exact Or.inl (by simp [get_medicine_info, h, h2])

/-- Claim C2: get_medicine_info lower-cases the name; a hit in the static
authoritative table is returned verbatim whatever the bulk store holds
(so on a name present in both tiers the static record wins and the bulk
store is not consulted); on a static miss the bulk store is queried by
exact normalized key; when both tiers miss, the explicit Medicine not
found value is returned. -/
theorem claim_C2 (name : String) (bulk : List MedicineRecord) :
    (∀ r, List.lookup (lower name) medicine_info_db = some r →
      ∀ bulk2 : List MedicineRecord, get_medicine_info bulk2 name = MedicineInfoResult.ok r) ∧
    (List.lookup (lower name) medicine_info_db = none →
      ((∀ mrec, bulk.find? (fun m => m.name == lower name) = some mrec →
          get_medicine_info bulk name = MedicineInfoResult.ok mrec) ∧
       (bulk.find? (fun m => m.name == lower name) = none →
          get_medicine_info bulk name = MedicineInfoResult.error "Medicine not found"))) := by
  refine ⟨?_, fun h => ⟨?_, ?_⟩⟩
  · intro r h bulk2
    simp [get_medicine_info, h]
  · intro mrec h2
    simp [get_medicine_info, h, h2]
  · intro h2
    simp [get_medicine_info, h, h2]

/-- Claim C2, witness: aspirin is present in the static table and in a
bulk store with different text; the static record wins verbatim. -/
theorem claim_C2_witness :
    get_medicine_info [⟨"aspirin", "bulk description", "bulk uses", "bulk side effects"⟩]
        "Aspirin" =
      MedicineInfoResult.ok
        ⟨"Aspirin",
         "Aspirin is a nonsteroidal anti-inflammatory drug (NSAID) used to reduce pain, fever, and inflammation.",
         "Pain relief (headaches, muscle aches, etc.), fever reduction, and prevention of blood clots (at low doses).",
         "Stomach upset, heartburn, nausea, and increased risk of bleeding."⟩ :=
  (claim_C2 "Aspirin" [⟨"aspirin", "bulk description", "bulk uses", "bulk side effects"⟩]).1
    ⟨"Aspirin",
     "Aspirin is a nonsteroidal anti-inflammatory drug (NSAID) used to reduce pain, fever, and inflammation.",
     "Pain relief (headaches, muscle aches, etc.), fever reduction, and prevention of blood clots (at low doses).",
     "Stomach upset, heartburn, nausea, and increased risk of bleeding."⟩
    (by decide) [⟨"aspirin", "bulk description", "bulk uses", "bulk side effects"⟩]

/-- Claim C6: for every drug present in the dosage table, get_dosage
returns the child-band string exactly when age < 18 and the adult-band
string otherwise; negative ages are accepted and fall in the child band;
at the boundary, aspirin at 17 gives 50mg and at 18 gives 100mg. -/
theorem claim_C6 :
    (∀ (drug : String) (entry : DosageEntry) (age : Int),
      List.lookup (lower drug) dosage_by_age = some entry →
      get_dosage drug age =
        DosageResult.ok (lower drug) (if age < 18 then entry.child else entry.adult)) ∧
    get_dosage "aspirin" 17 = DosageResult.ok "aspirin" "50mg" ∧
    get_dosage "aspirin" 18 = DosageResult.ok "aspirin" "100mg" ∧
    get_dosage "aspirin" (-3) = DosageResult.ok "aspirin" "50mg" := by
  refine ⟨?_, by decide, by decide, by decide⟩
  intro drug entry age h
  simp [get_dosage, h]

/-- Claim C6, witness: ibuprofen at the adult age 30 gives the adult band
of its table entry. -/
theorem claim_C6_witness :
    get_dosage "ibuprofen" 30 = DosageResult.ok "ibuprofen" "200mg" :=
  claim_C6.1 "ibuprofen" ⟨"100mg", "200mg"⟩ 30 (by decide)

/-- Claim C7: get_dosage is invariant under the casing of the drug name:
two names with the same lower-casing give identical results for every
age, and the three case variants of aspirin at age 10 all give the dict
with drug aspirin and recommended_dosage 50mg. -/
theorem claim_C7 :
    (∀ (s t : String) (age : Int), lower s = lower t →
      get_dosage s age = get_dosage t age) ∧
    get_dosage "Aspirin" 10 = DosageResult.ok "aspirin" "50mg" ∧
    get_dosage "ASPIRIN" 10 = DosageResult.ok "aspirin" "50mg" ∧
    get_dosage "aspirin" 10 = DosageResult.ok "aspirin" "50mg" := by
  refine ⟨?_, by decide, by decide, by decide⟩
  intro s t age h
  unfold get_dosage
  rw [h]

/-- Claim C7, witness: two case variants of aspirin agree at age 10. -/
theorem claim_C7_witness :
    get_dosage "Aspirin" 10 = get_dosage "ASPIRIN" 10 :=
  claim_C7.1 "Aspirin" "ASPIRIN" 10 (by decide)

/-- A successful association-list lookup comes from a stored binding. -/
theorem lookup_mem {α β : Type _} [BEq α] [LawfulBEq α] :
    ∀ {l : List (α × β)} {k : α} {v : β}, List.lookup k l = some v → (k, v) ∈ l := by
  intro l
  induction l with
  | nil => intro k v h; cases h
  | cons e t ih =>
    intro k v h
    rcases e with ⟨a, b⟩
    rw [List.lookup_cons] at h
    cases hb : (k == a) with
    | true =>
      simp only [hb, Option.some.injEq] at h
      subst h
      have hk : k = a := eq_of_beq hb
      subst hk
      exact List.mem_cons_self _ _
    | false =>
      simp only [hb] at h
      exact List.mem_cons_of_mem _ (ih h)

/-- Claim C8: placing an order stores it under the fresh order_id with
status Processing, so order_status on that id echoes the submitted drugs,
location and mobile_number with status Processing; the response announces
the order as placed; order creation preserves the invariant that every
stored order has status Processing (it is the only mutating operation of
the core, so the status never changes afterwards); and under that
invariant every successful order_status query reports Processing. -/
theorem claim_C8 (orders : List (String × Order)) (oid : String) (req : OrderMedicinesRequest) :
    order_status (order_medicines orders oid req).1 oid =
      OrderStatusResult.ok oid "Processing" req.drugs req.location req.mobile_number ∧
    (order_medicines orders oid req).2 = ⟨oid, "Order placed"⟩ ∧
    (allProcessing orders → allProcessing (order_medicines orders oid req).1) ∧
    (∀ (k : String) (o : Order), allProcessing orders →
      List.lookup k orders = some o →
      order_status orders k =
        OrderStatusResult.ok k "Processing" o.drugs o.location o.mobile_number) := by
  refine ⟨?_, rfl, ?_, ?_⟩
  · simp [order_status, order_medicines, List.lookup_cons]
  · intro h p hp
    rcases List.mem_cons.mp hp with rfl | hm
    · rfl
    · exact h p hm
  · intro k o h hlk
    have hst : o.status = "Processing" := h (k, o) (lookup_mem hlk)
    simp [order_status, hlk, hst]

/-- Claim C8, witness: a concrete order round-trips with status
Processing, and the new one-order table satisfies the invariant. -/
theorem claim_C8_witness :
    order_status (order_medicines [] "oid-1" ⟨["aspirin"], "A", "X", "1234567890"⟩).1 "oid-1" =
      OrderStatusResult.ok "oid-1" "Processing" ["aspirin"] "X" "1234567890" ∧
    allProcessing (order_medicines [] "oid-1" ⟨["aspirin"], "A", "X", "1234567890"⟩).1 :=
  ⟨(claim_C8 [] "oid-1" ⟨["aspirin"], "A", "X", "1234567890"⟩).1,
   (claim_C8 [] "oid-1" ⟨["aspirin"], "A", "X", "1234567890"⟩).2.2.1
     (fun p hp => absurd hp (List.not_mem_nil p))⟩

/-- The source side-effects extraction agrees with the first-of rule of
the specification. -/
theorem extractSideEffects_eq_spec (item : FdaItem) :
    extractSideEffects item = sideEffectsSpec item := by
  rcases item with ⟨g, b, iu, pt, ar, w, pr⟩
  rcases ar with _ | (_ | ⟨x, xs⟩) <;> rcases w with _ | (_ | ⟨y, ys⟩) <;>
    rcases pr with _ | (_ | ⟨z, zs⟩) <;>
      simp [extractSideEffects, sideEffectsSpec, List.findSome?]

/-- Every binding of the imported table comes from an item of the feed
whose processing produced exactly its record. -/
theorem foldl_insertRow_mem :
    ∀ (items : List FdaItem) (acc : List (String × MedicineRecord))
      (p : String × MedicineRecord),
      p ∈ items.foldl insertRow acc →
      p ∈ acc ∨ ∃ item, item ∈ items ∧ processItem item = some p.2 := by
  intro items
  induction items with
  | nil => intro acc p h; exact Or.inl h
  | cons it rest ih =>
    intro acc p h
    rw [List.foldl_cons] at h
    rcases ih (insertRow acc it) p h with hacc | ⟨item, hmem, hproc⟩
    · unfold insertRow at hacc
      cases hp : processItem it with
      | none => rw [hp] at hacc; exact Or.inl hacc
      | some row =>
        rw [hp] at hacc
        cases hl : (List.lookup row.name acc).isSome with
        | true => simp only [hl, if_true] at hacc; exact Or.inl hacc
        | false =>
          simp only [hl, if_false] at hacc
          rcases List.mem_append.mp hacc with h1 | h2
          · exact Or.inl h1
          · rw [List.mem_singleton] at h2
            subst h2
            exact Or.inr ⟨it, List.mem_cons_self it rest, hp⟩
    · exact Or.inr ⟨item, List.mem_cons_of_mem it hmem, hproc⟩

/-- Claim C9: the side_effects field of every record the bulk importer
builds is the space-joined text of the first of adverse_reactions,
warnings, precautions that is present and non-empty, and the literal
sentinel Not available. when none is; and every stored row of the
imported table is the processed record of some item of the feed. -/
theorem claim_C9 :
    (∀ (item : FdaItem) (row : MedicineRecord),
      processItem item = some row → row.side_effects = sideEffectsSpec item) ∧
    (∀ (items : List FdaItem) (p : String × MedicineRecord),
      p ∈ import_data_from_json items →
      ∃ item, item ∈ items ∧ processItem item = some p.2) := by
  constructor
  · intro item row h
    simp only [processItem] at h
    by_cases hn : extractName item = ""
    · rw [if_pos hn] at h; cases h
    · rw [if_neg hn] at h
      cases h
      exact extractSideEffects_eq_spec item
  · intro items p h
    rcases foldl_insertRow_mem items [] p h with h0 | hex
    · exact absurd h0 (List.not_mem_nil p)
    · exact hex

/-- Claim C9, witness: an item with adverse reactions present gets their
space-joined text; another with none of the three fields would get the
sentinel, as the spec-side rule computes on this concrete item. -/
theorem claim_C9_witness :
    (⟨"aspirin", "Not available.", "Not available.", "W1 W2"⟩ : MedicineRecord).side_effects =
      sideEffectsSpec ⟨some ["Aspirin"], none, none, none, some ["W1", "W2"], none, none⟩ :=
  claim_C9.1 ⟨some ["Aspirin"], none, none, none, some ["W1", "W2"], none, none⟩
    ⟨"aspirin", "Not available.", "Not available.", "W1 W2"⟩ (by decide)

end MedApp
